import Mathlib

/-!
Verification development for the `moonito` visitor-traffic-filtering SDK
(`src/index.ts`, class `VisitorTrafficFiltering`).

The TypeScript source is shallowly embedded below.  External collaborators
(the Node.js runtime and standard library) are modelled by their documented
behaviour where the source delegates to them:
 - `Number(string)` conversion (used to sniff `unwantedVisitorTo` for a
   status code) is modelled exactly — decimal, fraction, exponent,
   hex/octal/binary prefixes, `Infinity`, surrounding whitespace — with a
   finite value kept as an exact pair mantissa / power-of-ten
   (ignoring IEEE-754 rounding, irrelevant for the small integers at issue);
 - the WHATWG `URL` constructor is modelled for `http`/`https` URLs with
   unescaped ASCII components (host lowercasing, default-port elision,
   userinfo stripping, dot-segment removal, query/fragment splitting);
   inputs outside that fragment are treated as parse failures (throws);
 - `net.isIPv4` / `net.isIPv6` are modelled after the exact regular
   expressions of Node's `lib/internal/net.js`;
 - the two network calls (`requestAnalyticsAPI` and the mode-3 loopback
   fetch `httpRequestWithBypass`) are oracles passed in as `Except`
   parameters: `.error` is a transport failure / rejected promise (a
   malformed JSON body is folded into the same wrapped-error path the
   `catch` produces), `.ok` a delivered body.
All definitions are executable; stateful delivery (`res.sendStatus`,
`res.send`, `res.redirect`, `res.status(..).send(..)`) is reified as the
`ResponseAction` datatype.
-/

namespace VTF

/-! ## Kernel-friendly string helpers

`String.splitOn` / `String.startsWith` from core do not reduce inside the
kernel (they loop over byte positions), so the development uses these
structurally recursive list-based equivalents. -/

/-- `listBeginsWith pat l`: `pat` is a prefix of `l`. -/
def listBeginsWith : List Char → List Char → Bool
  | [], _ => true
  | _ :: _, [] => false
  | a :: as, b :: bs => a = b && listBeginsWith as bs

/-- `strBeginsWith s pat`: model of JS `s.startsWith(pat)`. -/
def strBeginsWith (s pat : String) : Bool :=
  listBeginsWith pat.toList s.toList

/-- Fuelled splitter on a (nonempty) separator; fuel `≥` input length. -/
def splitFuel (sep : List Char) : Nat → List Char → List Char → List (List Char)
  | _, [], acc => [acc.reverse]
  | 0, cs, acc => [acc.reverse ++ cs]
  | fuel + 1, c :: rest, acc =>
    if sep ≠ [] ∧ listBeginsWith sep (c :: rest) then
      acc.reverse :: splitFuel sep fuel ((c :: rest).drop sep.length) []
    else
      splitFuel sep fuel rest (c :: acc)

/-- Split a string on a separator (standard greedy left-to-right split). -/
def splitStr (s sep : String) : List String :=
  (splitFuel sep.toList s.toList.length s.toList []).map String.mk

/-- `jsIncludes hay needle`: model of JS `hay.includes(needle)`. -/
def jsIncludesList (needle : List Char) : List Char → Bool
  | [] => listBeginsWith needle []
  | c :: rest => listBeginsWith needle (c :: rest) || jsIncludesList needle rest

/-- Model of JS `String.prototype.includes`. -/
def jsIncludes (hay needle : String) : Bool :=
  jsIncludesList needle.toList hay.toList

/-! ## JS `Number(string)` model -/

/-- A finite JS number, exactly: the value is `mant / 10 ^ shift`. -/
structure JsFinite where
  mant : Int
  shift : Nat
deriving DecidableEq, Repr

/-- The rational value of a finite JS number. -/
def JsFinite.toRat (f : JsFinite) : ℚ :=
  (f.mant : ℚ) / (10 : ℚ) ^ f.shift

/-- The finite JS number denoting an integer. -/
def JsFinite.ofInt (n : Int) : JsFinite :=
  ⟨n, 0⟩

/-- JS `<=` on finite numbers (cross multiplication; `10 ^ shift > 0`). -/
def jsle (a b : JsFinite) : Bool :=
  decide (a.mant * (10 : Int) ^ b.shift ≤ b.mant * (10 : Int) ^ a.shift)

/-- Result of JS `Number(...)` on a string: `NaN`, an infinity, or a finite
value. -/
inductive JsNum where
  | nan
  | posInf
  | negInf
  | num (f : JsFinite)
deriving DecidableEq, Repr

/-- JS `StrWhiteSpace` characters recognised by `Number` conversion. -/
def jsWhitespace (c : Char) : Bool :=
  c = ' ' || c = '\t' || c = '\n' || c = '\r' ||
  c = Char.ofNat 11 || c = Char.ofNat 12 || c = Char.ofNat 0xA0 ||
  c = Char.ofNat 0xFEFF || c = Char.ofNat 0x2028 || c = Char.ofNat 0x2029

/-- Strip JS whitespace from both ends. -/
def jsTrim (s : String) : List Char :=
  ((s.toList.dropWhile jsWhitespace).reverse.dropWhile jsWhitespace).reverse

/-- Value of one digit in the given base, if valid. -/
def digitVal (base : Nat) (c : Char) : Option Nat :=
  let v : Option Nat :=
    if '0' ≤ c ∧ c ≤ '9' then some (c.toNat - 48)
    else if 'a' ≤ c ∧ c ≤ 'f' then some (c.toNat - 87)
    else if 'A' ≤ c ∧ c ≤ 'F' then some (c.toNat - 55)
    else none
  match v with
  | some d => if d < base then some d else none
  | none => none

/-- Value of a nonempty digit string in the given base, if every character
is a valid digit. -/
def radixVal (base : Nat) (cs : List Char) : Option Nat :=
  match cs with
  | [] => none
  | _ =>
    cs.foldl (fun acc c =>
      match acc, digitVal base c with
      | some a, some d => some (base * a + d)
      | _, _ => none) (some 0)

/-- Value of a run of decimal digits (already checked to be digits). -/
def decDigitsVal (cs : List Char) : Nat :=
  cs.foldl (fun a c => 10 * a + (c.toNat - 48)) 0

/-- Parse the optional exponent tail of a `StrDecimalLiteral`
(`e`/`E`, optional sign, nonempty digits); `[]` means exponent `0`. -/
def parseExpPart (cs : List Char) : Option Int :=
  match cs with
  | [] => some 0
  | e :: rest =>
    if e = 'e' ∨ e = 'E' then
      match rest with
      | '+' :: ds => if ds ≠ [] ∧ ds.all Char.isDigit then some (decDigitsVal ds) else none
      | '-' :: ds => if ds ≠ [] ∧ ds.all Char.isDigit then some (-(decDigitsVal ds : Int)) else none
      | ds => if ds ≠ [] ∧ ds.all Char.isDigit then some (decDigitsVal ds) else none
    else none

/-- Assemble `intPart.fracPart * 10 ^ e` as an exact finite JS number. -/
def assembleDecimal (ip fp : List Char) (e : Int) : JsFinite :=
  let mant : Int := (decDigitsVal ip : Int) * (10 : Int) ^ fp.length + (decDigitsVal fp : Int)
  if 0 ≤ e then ⟨mant * (10 : Int) ^ e.toNat, fp.length⟩
  else ⟨mant, fp.length + (-e).toNat⟩

/-- Parse an unsigned `StrDecimalLiteral` without the `Infinity` form:
`digits [. digits] [exp]` or `. digits [exp]`. -/
def parseDecimal (cs : List Char) : Option JsFinite :=
  let ip := cs.takeWhile Char.isDigit
  let r1 := cs.dropWhile Char.isDigit
  match r1 with
  | '.' :: r2 =>
    let fp := r2.takeWhile Char.isDigit
    let r3 := r2.dropWhile Char.isDigit
    if ip = [] ∧ fp = [] then none
    else
      match parseExpPart r3 with
      | some e => some (assembleDecimal ip fp e)
      | none => none
  | _ =>
    if ip = [] then none
    else
      match parseExpPart r1 with
      | some e => some (assembleDecimal ip [] e)
      | none => none

/-- Unsigned part of the decimal grammar, `Infinity` included. -/
def decUnsigned (cs : List Char) (neg : Bool) : JsNum :=
  if cs = ("Infinity").toList then (if neg then .negInf else .posInf)
  else
    match parseDecimal cs with
    | some f => .num (if neg then ⟨-f.mant, f.shift⟩ else f)
    | none => .nan

/-- Signed decimal literal. -/
def decSigned (cs : List Char) : JsNum :=
  match cs with
  | '+' :: rest => decUnsigned rest false
  | '-' :: rest => decUnsigned rest true
  | _ => decUnsigned cs false

/-- Numeric literal after trimming: `0x`/`0o`/`0b` radix forms (unsigned),
otherwise a signed decimal literal. -/
def jsNumberCore (cs : List Char) : JsNum :=
  match cs with
  | '0' :: c :: rest =>
    if c = 'x' ∨ c = 'X' then (match radixVal 16 rest with | some n => .num (.ofInt n) | none => .nan)
    else if c = 'o' ∨ c = 'O' then (match radixVal 8 rest with | some n => .num (.ofInt n) | none => .nan)
    else if c = 'b' ∨ c = 'B' then (match radixVal 2 rest with | some n => .num (.ofInt n) | none => .nan)
    else decSigned ('0' :: c :: rest)
  | _ => decSigned cs

/-- Model of JS `Number(s)` for a string `s` (exact value, no rounding). -/
def jsNumber (s : String) : JsNum :=
  jsNumberCore (jsTrim s)

/-! ## WHATWG `URL` model (http/https fragment)

`urlsMatch` in the source reads `url.host`, `url.pathname` and `url.search`
of `new URL(...)`; mode 3 only needs to know whether `new URL(...)` throws.
`parseUrl` below returns those three components, or `none` where the
constructor throws (non-http/https inputs are conservatively treated as
throws; every concrete URL used in a theorem below is inside the modelled
fragment). -/

/-- The three components of a parsed URL that the source consults. -/
structure UrlParts where
  host : String
  pathname : String
  search : String
deriving DecidableEq, Repr

/-- ASCII lowercasing of a host name. -/
def asciiLower (s : String) : String :=
  String.mk (s.toList.map fun c => if 'A' ≤ c ∧ c ≤ 'Z' then Char.ofNat (c.toNat + 32) else c)

/-- WHATWG remove-dot-segments on a list of path segments, accumulator
reversed.  The final `.`/`..` segment leaves a trailing slash. -/
def removeDots (acc : List String) : List String → List String
  | [] => acc.reverse
  | [seg] =>
    if seg = "." then (("") :: acc).reverse
    else if seg = ".." then (("") :: acc.drop 1).reverse
    else (seg :: acc).reverse
  | seg :: rest =>
    if seg = "." then removeDots acc rest
    else if seg = ".." then removeDots (acc.drop 1) rest
    else removeDots (seg :: acc) rest

/-- Characters that terminate the authority component (`\\` behaves like
`/` for special schemes). -/
def authorityEnd (c : Char) : Bool :=
  c = '/' || c = '?' || c = '#' || c = '\\'

/-- Forbidden host code points that make the constructor throw (restricted
to those that can still occur once the authority has been delimited). -/
def forbiddenHostChar (c : Char) : Bool :=
  c = ' ' || c = '%' || c = '<' || c = '>' || c = '^' || c = '|' || c = '\t' || c = '\n' || c = '\r'

/-- Split `host[:port]`, validate, lowercase, and elide the default port.
Returns the serialized `URL.host`, or `none` where the constructor throws. -/
def parseHostPort (hostport : List Char) (defaultPort : Nat) : Option String :=
  let split : List Char × Option (List Char) :=
    if hostport.contains ':' then
      (hostport.takeWhile (fun c => c ≠ ':'), some ((hostport.dropWhile (fun c => c ≠ ':')).drop 1))
    else (hostport, none)
  let hostname := split.1
  if hostname = [] then none
  else if hostname.any forbiddenHostChar then none
  else
    let hn := asciiLower (String.mk hostname)
    match split.2 with
    | none => some hn
    | some portCs =>
      if portCs = [] then some hn
      else if portCs.all Char.isDigit then
        let p := decDigitsVal portCs
        if p > 65535 then none
        else if p = defaultPort then some hn
        else some (hn ++ ":" ++ toString p)
      else none

/-- Parse the path/query tail that follows the authority. -/
def parsePathQuery (rest : List Char) : String × String :=
  let beforeHash := rest.takeWhile (fun c => c ≠ '#')
  let pathRaw := beforeHash.takeWhile (fun c => c ≠ '?')
  let query := (beforeHash.dropWhile (fun c => c ≠ '?')).drop 1
  let slashed := pathRaw.map (fun c => if c = '\\' then '/' else c)
  let pathname :=
    match slashed with
    | [] => "/"
    | _ :: tail =>
      let segs := removeDots [] (splitStr (String.mk tail) ("/"))
      "/" ++ String.intercalate ("/") segs
  (pathname, if query = [] then "" else "?" ++ String.mk query)

/-- Model of `new URL(s)` restricted to the fragment the source exercises:
the serialized `host`, `pathname` and `search`, or `none` when the
constructor throws. -/
def parseUrl (s : String) : Option UrlParts :=
  let parsed : Option (Nat × List Char) :=
    if strBeginsWith s ("http://") then some (80, s.toList.drop 7)
    else if strBeginsWith s ("https://") then some (443, s.toList.drop 8)
    else none
  match parsed with
  | none => none
  | some (defaultPort, cs) =>
    let authority := cs.takeWhile (fun c => ¬ authorityEnd c)
    let rest := cs.dropWhile (fun c => ¬ authorityEnd c)
    let hostport :=
      if authority.contains '@' then (authority.reverse.takeWhile (fun c => c ≠ '@')).reverse
      else authority
    match parseHostPort hostport defaultPort with
    | none => none
    | some host =>
      let pq := parsePathQuery rest
      some ⟨host, pq.1, pq.2⟩

/-! ## Node `net.isIPv4` / `net.isIPv6` model

Transcribed from the `IPv4Reg` / `IPv6Reg` regular expressions of Node's
`lib/internal/net.js`. -/

/-- One IPv4 octet: `25[0-5]|2[0-4][0-9]|1[0-9][0-9]|[1-9][0-9]|[0-9]`
(no leading zeros). -/
def v4SegOk (s : String) : Bool :=
  match s.toList with
  | [a] => a.isDigit
  | [a, b] => ('1' ≤ a ∧ a ≤ '9') ∧ b.isDigit
  | [a, b, c] =>
    (a = '1' ∧ b.isDigit ∧ c.isDigit) ∨
    (a = '2' ∧ ('0' ≤ b ∧ b ≤ '4') ∧ c.isDigit) ∨
    (a = '2' ∧ b = '5' ∧ ('0' ≤ c ∧ c ≤ '5'))
  | _ => false

/-- Model of `net.isIPv4`: exactly four octets joined by `.`. -/
def isIPv4 (s : String) : Bool :=
  match splitStr s (".") with
  | [a, b, c, d] => v4SegOk a && v4SegOk b && v4SegOk c && v4SegOk d
  | _ => false

/-- A hexadecimal character. -/
def isHexChar (c : Char) : Bool :=
  c.isDigit || ('a' ≤ c ∧ c ≤ 'f') || ('A' ≤ c ∧ c ≤ 'F')

/-- One IPv6 group: one to four hex digits. -/
def hexSegOk (s : String) : Bool :=
  1 ≤ s.toList.length && s.toList.length ≤ 4 && s.toList.all isHexChar

/-- Group count of a colon-separated tail: all groups hex, or all-but-last
hex with an embedded IPv4 quad counting as two groups. -/
def v6TailCount (l : List String) : Option Nat :=
  match l.reverse with
  | [] => some 0
  | lastSeg :: revInit =>
    if revInit.all hexSegOk then
      if hexSegOk lastSeg then some l.length
      else if isIPv4 lastSeg then some (l.length + 1)
      else none
    else none

/-- Characters allowed in a zone suffix (`%...`) by Node's regex. -/
def zoneCharOk (c : Char) : Bool :=
  c.isAlphanum || c = '-' || c = '.' || c = ':'

/-- Model of `net.isIPv6` (Node's `IPv6Reg`, zone suffix included). -/
def isIPv6 (s : String) : Bool :=
  let zparts := splitStr s ("%")
  let addrOk : String → Bool := fun addr =>
    match splitStr addr ("::") with
    | [one] =>
      (match v6TailCount (splitStr one (":")) with
       | some n => n = 8
       | none => false)
    | [l, r] =>
      let lg := if l = "" then [] else splitStr l (":")
      let rg := if r = "" then [] else splitStr r (":")
      lg.all hexSegOk &&
      (match v6TailCount rg with
       | some n => lg.length + n ≤ 7
       | none => false)
    | _ => false
  match zparts with
  | [addr] => addrOk addr
  | [addr, zone] => addrOk addr && 1 ≤ zone.toList.length && zone.toList.all zoneCharOk
  | _ => false

/-! ## Data model (`Config`, request descriptor, service envelope) -/

/-- The constructor configuration (`interface Config`). -/
structure Config where
  isProtected : Bool
  apiPublicKey : String
  apiSecretKey : String
  unwantedVisitorTo : Option String
  unwantedVisitorAction : Option Int
deriving DecidableEq, Repr

/-- JS truthiness of an optional string field: `undefined` and `""` are
falsy. -/
def truthyStr : Option String → Option String
  | some s => if s = "" then none else some s
  | none => none

/-- The parts of the Express request the source reads.  Header values are
`Option String` (`none` = absent / `undefined`). -/
structure Request where
  bypassHeader : Option String
  tokenHeader : Option String
  xForwardedFor : Option String
  userAgent : Option String
  url : String
  originalUrl : Option String
  protocol : Option String
  hostHeader : Option String
  hostname : String
  remoteAddress : Option String
deriving DecidableEq, Repr

/-- JS `a || b` where `a` is an optional string and `b` a string. -/
def jsOrStr (a : Option String) (b : String) : String :=
  match a with
  | some s => if s = "" then b else s
  | none => b

/-- JS `a || b` on two optional strings. -/
def jsOrOpt (a b : Option String) : Option String :=
  match a with
  | some s => if s = "" then b else some s
  | none => b

/-- Template-literal interpolation of a possibly-`undefined` string. -/
def jsTemplateOpt : Option String → String
  | some s => s
  | none => "undefined"

/-- The service error `message` field: a single string or a list. -/
inductive ErrMessage where
  | one (s : String)
  | many (l : List String)
deriving DecidableEq, Repr

/-- `Array.isArray(m) ? m.join(', ') : m` of the error message. -/
def joinMsg : ErrMessage → String
  | .one s => s
  | .many l => String.intercalate (", ") l

/-- `data.status` of the service envelope (`need_to_block`,
`detect_activity`); a missing `need_to_block` is the falsy `false`, a
missing or `null` `detect_activity` is `none`. -/
structure StatusInfo where
  need_to_block : Bool
  detect_activity : Option String
deriving DecidableEq, Repr

/-- Parsed JSON envelope of the analytics response: the optional `error`
member and the optional-chained `data?.status` (a `none` at either level of
`data?.data?.status` collapses to `none`). -/
structure ApiEnvelope where
  error : Option ErrMessage
  status : Option StatusInfo
deriving DecidableEq, Repr

/-- `data?.data?.status?.need_to_block` with optional chaining (missing
path is falsy). -/
def needToBlockOf (env : ApiEnvelope) : Bool :=
  (env.status.map StatusInfo.need_to_block).getD false

/-- `data?.data?.status?.detect_activity` with optional chaining. -/
def detectActivityOf (env : ApiEnvelope) : Option String :=
  env.status.bind StatusInfo.detect_activity

/-! ## Bypass-token validation and URL matching -/

/-- `isValidBypassToken`: falsy token fails; `crypto.timingSafeEqual` on
buffers of different lengths throws (caught, `false`), on equal lengths it
is byte equality — together, equality with the instance token. -/
def isValidBypassToken (bypassToken : String) (token : Option String) : Bool :=
  match token with
  | none => false
  | some t => if t = "" then false else decide (t = bypassToken)

/-- `urlsMatch`: absolute target ⇒ compare `host`, `pathname`, `search` of
both parses; relative target ⇒ compare current `pathname + search` or bare
`pathname`; any `new URL` throw falls back to substring containment. -/
def urlsMatch (currentUrl targetUrl : String) : Bool :=
  if strBeginsWith targetUrl ("http://") || strBeginsWith targetUrl ("https://") then
    match parseUrl currentUrl, parseUrl targetUrl with
    | some c, some t =>
      decide (c.host = t.host) && decide (c.pathname = t.pathname) && decide (c.search = t.search)
    | _, _ => jsIncludes currentUrl targetUrl
  else
    match parseUrl currentUrl with
    | some c => decide (c.pathname ++ c.search = targetUrl) || decide (c.pathname = targetUrl)
    | none => jsIncludes currentUrl targetUrl

/-- `getCurrentUrl`: `(req.protocol || 'http')://req.get('host')` followed
by `req.originalUrl || req.url`. -/
def getCurrentUrl (req : Request) : String :=
  jsOrStr req.protocol ("http") ++ "://" ++ jsTemplateOpt req.hostHeader ++
    jsOrStr req.originalUrl req.url

/-- The self-URL guard condition
`this.config.unwantedVisitorTo && this.urlsMatch(currentUrl, ...)`. -/
def selfUrlHit (cfg : Config) (currentUrl : String) : Bool :=
  match truthyStr cfg.unwantedVisitorTo with
  | some target => urlsMatch currentUrl target
  | none => false

/-- `req.headers['x-forwarded-for'] || req.connection.remoteAddress`. -/
def clientIp (req : Request) : Option String :=
  jsOrOpt req.xForwardedFor req.remoteAddress

/-- `isValidIp` of the source: `net.isIPv4(ip) || net.isIPv6(ip)`. -/
def isValidIp (ip : String) : Bool :=
  isIPv4 ip || isIPv6 ip

/-- `isValidIp` applied to a possibly-`undefined` value (Node's validators
return `false` on non-strings). -/
def isValidIpOpt : Option String → Bool
  | none => false
  | some s => isValidIp s

/-! ## Blocked-response synthesis -/

/-- What the inline path does to the response object. -/
inductive ResponseAction where
  | sendStatus (code : JsFinite)
  | send (body : String)
  | redirect (status : Nat) (location : String)
  | statusSend (status : Nat) (body : String)
deriving DecidableEq, Repr

/-- What the manual path returns as `content`: `number | string`. -/
inductive BlockedContent where
  | status (code : JsFinite)
  | html (body : String)
deriving DecidableEq, Repr

/-- The iframe fragment (byte-identical template literal in both paths). -/
def iframeHtml (target : String) : String :=
  "<iframe src=\"" ++ target ++ "\" width=\"100%\" height=\"100%\" align=\"left\"></iframe>\n                    <style>body \x7b padding: 0; margin: 0; \x7d iframe \x7b margin: 0; padding: 0; border: 0; \x7d</style>"

/-- The timed-redirect fragment returned by the manual path. -/
def redirectHtml (target : String) : String :=
  "\n                <p>Redirecting to <a href=\"" ++ target ++ "\">" ++ target ++ "</a></p>\n                <script>\n                    setTimeout(function() \x7b\n                        window.location.href = \"" ++ target ++ "\";\n                    \x7d, 1000);\n                </script>"

/-- The inline 403 Access Denied page (template literal, lines 231–242). -/
def accessDeniedPage : String :=
  "\n                <!DOCTYPE html>\n                <html lang=\"en\">\n                <head>\n                    <title>Access Denied</title>\n                    <style>.sep \x7b border-bottom: 5px black dotted; \x7d</style>\n                </head>\n                <body>\n                    <div><b>Access Denied!</b></div>\n                </body>\n                </html>\n            "

/-- Body the inline path sends (with status 500) when the mode-3 loopback
fetch rejects. -/
def fetchFailureBody : String :=
  "Error fetching unwanted content."

/-- Fallback content of the manual path when the mode-3 fetch throws. -/
def contentNotAvailable : String :=
  "<p>Content not available</p>"

/-- Manual-path Access Denied content. -/
def manualAccessDenied : String :=
  "<p>Access Denied!</p>"

/-- `handleBlockedVisitor` (inline delivery).  `fetchResult` is the oracle
for `httpRequestWithBypass`; a synchronous `new URL` throw escapes the
method (`Except.error`), while a rejected fetch promise is handled by the
`.catch` (status 500 + fallback body). -/
def handleBlockedVisitor (cfg : Config) (fetchResult : Except String String) :
    Except String ResponseAction :=
  match truthyStr cfg.unwantedVisitorTo with
  | some target =>
    match jsNumber target with
    | .num f =>
      if jsle (.ofInt 100) f && jsle f (.ofInt 599) then .ok (.sendStatus f)
      else .ok (.sendStatus (.ofInt 500))
    | .posInf => .ok (.sendStatus (.ofInt 500))
    | .negInf => .ok (.sendStatus (.ofInt 500))
    | .nan =>
      if cfg.unwantedVisitorAction = some 2 then .ok (.send (iframeHtml target))
      else if cfg.unwantedVisitorAction = some 3 then
        match parseUrl target with
        | none => .error ("Invalid URL")
        | some _ =>
          match fetchResult with
          | .ok body => .ok (.send body)
          | .error _ => .ok (.statusSend 500 fetchFailureBody)
      else .ok (.redirect 302 target)
  | none => .ok (.statusSend 403 accessDeniedPage)

/-- `getBlockedContent` (manual synthesis).  The `try` around the mode-3
fetch also catches the `new URL` throw, yielding the fallback content. -/
def getBlockedContent (cfg : Config) (fetchResult : Except String String) :
    BlockedContent :=
  match truthyStr cfg.unwantedVisitorTo with
  | some target =>
    match jsNumber target with
    | .num f =>
      if jsle (.ofInt 100) f && jsle f (.ofInt 599) then .status f
      else .status (.ofInt 500)
    | .posInf => .status (.ofInt 500)
    | .negInf => .status (.ofInt 500)
    | .nan =>
      if cfg.unwantedVisitorAction = some 2 then .html (iframeHtml target)
      else if cfg.unwantedVisitorAction = some 3 then
        match parseUrl target with
        | none => .html contentNotAvailable
        | some _ =>
          match fetchResult with
          | .ok body => .html body
          | .error _ => .html contentNotAvailable
      else .html (redirectHtml target)
  | none => .html manualAccessDenied

/-! ## The two evaluation pipelines -/

/-- Outcome of inline `evaluateVisitor` (a `void` promise: either an early
return at one of the guards, a thrown error, or a delivered response). -/
inductive InlineOutcome where
  | skipNotProtected
  | skipBypass
  | skipSelfUrl
  | threw (msg : String)
  | blocked (action : ResponseAction)
  | allowed
deriving DecidableEq, Repr

/-- The pipeline from the IP check onward (shared tail of the inline
path); `remote` is the `requestAnalyticsAPI` oracle. -/
def evalWithIp (cfg : Config) (ipOpt : Option String)
    (remote : Except String ApiEnvelope) (fetchResult : Except String String) :
    InlineOutcome :=
  if ¬ isValidIpOpt ipOpt then .threw ("Invalid IP address.")
  else
    match remote with
    | .error e => .threw ("Error handling visitor: " ++ e)
    | .ok env =>
      match env.error with
      | some m => .threw ("Error handling visitor: Requesting analytics error: " ++ joinMsg m)
      | none =>
        if needToBlockOf env then
          match handleBlockedVisitor cfg fetchResult with
          | .ok a => .blocked a
          | .error e => .threw ("Error handling visitor: " ++ e)
        else .allowed

/-- `evaluateVisitor(req, res)`: protection switch, bypass-header guard,
self-URL guard, IP validation, remote verdict, blocked-response delivery. -/
def evaluateVisitor (cfg : Config) (bypassToken : String) (req : Request)
    (remote : Except String ApiEnvelope) (fetchResult : Except String String) :
    InlineOutcome :=
  if ¬ cfg.isProtected then .skipNotProtected
  else if decide (req.bypassHeader = some ("1")) && isValidBypassToken bypassToken req.tokenHeader then
    .skipBypass
  else if selfUrlHit cfg (getCurrentUrl req) then .skipSelfUrl
  else evalWithIp cfg (clientIp req) remote fetchResult

/-- The structured result of `evaluateVisitorManually`. -/
structure ManualResult where
  need_to_block : Bool
  detect_activity : Option String
  content : Option BlockedContent
deriving DecidableEq, Repr

/-- The current URL the manual path synthesizes from `event` and `domain`
for the self-URL guard. -/
def manualCurrentUrl (event domain : String) : String :=
  if strBeginsWith event ("http://") || strBeginsWith event ("https://") then event
  else "https://" ++ domain ++ (if strBeginsWith event ("/") then event else "/" ++ event)

/-- `evaluateVisitorManually(ip, userAgent, event, domain)`.  `userAgent`
only feeds the remote query, which the `remote` oracle stands for. -/
def evaluateVisitorManually (cfg : Config) (ip userAgent event domain : String)
    (remote : Except String ApiEnvelope) (fetchResult : Except String String) :
    Except String ManualResult :=
  if ¬ cfg.isProtected then .ok ⟨false, none, none⟩
  else if selfUrlHit cfg (manualCurrentUrl event domain) then .ok ⟨false, none, none⟩
  else if ¬ isValidIp ip then .error ("Invalid IP address.")
  else
    match remote with
    | .error e => .error ("Error handling visitor manually: " ++ e)
    | .ok env =>
      match env.error with
      | some m => .error ("Error handling visitor manually: Requesting analytics error: " ++ joinMsg m)
      | none =>
        if needToBlockOf env then
          .ok ⟨true, detectActivityOf env, some (getBlockedContent cfg fetchResult)⟩
        else .ok ⟨false, detectActivityOf env, none⟩

/-! ## Content equivalence of the two delivery paths -/

/-- Is the mode-3 fetch oracle a failure? -/
def isFetchError : Except String String → Bool
  | .error _ => true
  | .ok _ => false

/-- The spec's content-equivalence pairing between an inline delivery and a
manual content value: same status number; same HTML body; a 302 redirect
matches the timed-redirect fragment for the same location; the inline 403
Access Denied page matches the manual Access Denied content. -/
def contentEquiv : Except String ResponseAction → BlockedContent → Bool
  | .ok (.sendStatus f), .status c => decide (f = c)
  | .ok (.send b), .html h => decide (b = h)
  | .ok (.redirect 302 loc), .html h => decide (h = redirectHtml loc)
  | .ok (.statusSend 403 body), .html h =>
    decide (body = accessDeniedPage) && decide (h = manualAccessDenied)
  | _, _ => false

/-- The one place the two paths diverge: action mode 3 whose loopback
fetch fails (or whose target URL does not even parse). -/
def mode3FailureB (cfg : Config) (fetchResult : Except String String) : Bool :=
  match truthyStr cfg.unwantedVisitorTo with
  | some target =>
    decide (jsNumber target = .nan) && decide (cfg.unwantedVisitorAction = some 3) &&
      ((parseUrl target).isNone || isFetchError fetchResult)
  | none => false

/-! ## Helper lemmas -/

/-- `jsle` decides the value order of finite JS numbers. -/
theorem jsle_iff (a b : JsFinite) : jsle a b = true ↔ a.toRat ≤ b.toRat := by
  unfold jsle JsFinite.toRat
  rw [decide_eq_true_iff, div_le_div_iff₀ (by positivity) (by positivity)]
  constructor
  · intro h
    exact_mod_cast h
  · intro h
    exact_mod_cast h

/-- `toRat` of an integer JS number. -/
theorem toRat_ofInt (n : Int) : (JsFinite.ofInt n).toRat = (n : ℚ) := by
  unfold JsFinite.toRat JsFinite.ofInt
  norm_num

/-- The tail of the inline pipeline never produces the bypass skip. -/
theorem evalWithIp_ne_bypass (cfg : Config) (ipOpt : Option String)
    (remote : Except String ApiEnvelope) (fetchResult : Except String String) :
    evalWithIp cfg ipOpt remote fetchResult ≠ .skipBypass := by
  unfold evalWithIp
  split
  · simp
  · split
    · simp
    · split
      · simp
      · split
        · split <;> simp
        · simp

/-- A valid bypass token is exactly the instance token (nonempty instance
token, as produced by `generateSecureToken`). -/
theorem isValidBypassToken_iff (bt : String) (tok : Option String) (h : bt ≠ "") :
    isValidBypassToken bt tok = true ↔ tok = some bt := by
  unfold isValidBypassToken
  rcases tok with _ | t
  · simp
  · by_cases ht : t = ""
    · subst ht
      simp only [if_pos rfl]
      constructor
      · intro hfalse
        exact absurd hfalse (by simp)
      · intro hsome
        exact absurd (Option.some.inj hsome).symm h
    · simp [ht]

/-! ## C8: `isValidIp` is the disjunction of syntactic IPv4/IPv6 validity -/

/-- C8 — For every string, `isValidIp` returns true exactly when the string
is a syntactically valid IPv4 or IPv6 literal (as validated by the modelled
`net.isIPv4` / `net.isIPv6`), and returns false on the claim's non-IP
examples: the empty string, hostnames, partial or out-of-range octets. -/
theorem c8_isValidIp_spec :
    (∀ s, isValidIp s = (isIPv4 s || isIPv6 s)) ∧
    isValidIp ("127.0.0.1") = true ∧
    isValidIp ("255.255.255.255") = true ∧
    isValidIp ("::1") = true ∧
    isValidIp ("2001:db8::ff00:42:8329") = true ∧
    isValidIp ("::ffff:127.0.0.1") = true ∧
    isValidIp ("") = false ∧
    isValidIp ("example.com") = false ∧
    isValidIp ("moonito.net") = false ∧
    isValidIp ("1.2.3") = false ∧
    isValidIp ("256.0.0.1") = false ∧
    isValidIp ("1.2.3.") = false := by
  refine ⟨fun s => rfl, ?_⟩
  decide

/-! ## C9: disabled protection is a no-op -/

/-- C9 — With `isProtected = false`, inline evaluation returns immediately
(no header read, no response write: the outcome is `skipNotProtected` for
every request, oracle and token) and manual evaluation resolves to
`{need_to_block: false, detect_activity: null, content: null}` for every
signal tuple and oracle. -/
theorem c9_notProtected_noop (cfg : Config) (bypassToken : String) (req : Request)
    (ip userAgent event domain : String)
    (remote : Except String ApiEnvelope) (fetchResult : Except String String)
    (h : cfg.isProtected = false) :
    evaluateVisitor cfg bypassToken req remote fetchResult = .skipNotProtected ∧
    evaluateVisitorManually cfg ip userAgent event domain remote fetchResult =
      .ok ⟨false, none, none⟩ := by
  unfold evaluateVisitor evaluateVisitorManually
  simp [h]

/-- C9 witness: a concrete unprotected configuration. -/
theorem c9_witness :
    evaluateVisitor ⟨false, "pk", "sk", some ("https://a.b/c"), some 2⟩ ("tok")
        ⟨some ("1"), some ("tok"), some ("1.2.3.4"), some ("ua"), "/x", none, none,
          some ("a.b"), "a.b", none⟩
        (.ok ⟨none, some ⟨true, some ("bot")⟩⟩) (.ok ("body")) = .skipNotProtected ∧
    evaluateVisitorManually ⟨false, "pk", "sk", some ("https://a.b/c"), some 2⟩
        ("1.2.3.4") ("ua") ("/x") ("a.b")
        (.ok ⟨none, some ⟨true, some ("bot")⟩⟩) (.ok ("body")) = .ok ⟨false, none, none⟩ :=
  c9_notProtected_noop _ _ _ _ _ _ _ _ _ rfl

/-! ## C10: manual results carry content only when blocking -/

/-- C10 — Whenever `evaluateVisitorManually` resolves (does not throw), its
`content` is `none` exactly when `need_to_block` is `false`: non-null
content comes only with a blocking verdict, and every non-blocking path
(disabled protection, self-URL guard, allowing verdict) yields null
content. -/
theorem c10_content_iff_block (cfg : Config) (ip userAgent event domain : String)
    (remote : Except String ApiEnvelope) (fetchResult : Except String String)
    (r : ManualResult)
    (h : evaluateVisitorManually cfg ip userAgent event domain remote fetchResult = .ok r) :
    (r.need_to_block = false ↔ r.content = none) := by
  unfold evaluateVisitorManually at h
  split at h
  · cases h
    simp
  · split at h
    · cases h
      simp
    · split at h
      · simp at h
      · split at h
        · simp at h
        · split at h
          · simp at h
          · split at h
            · cases h
              simp
            · cases h
              simp

/-- C10 witness: the allowing-verdict path at concrete inputs. -/
theorem c10_witness :
    ((⟨false, some ("bot"), none⟩ : ManualResult).need_to_block = false ↔
      (⟨false, some ("bot"), none⟩ : ManualResult).content = none) :=
  c10_content_iff_block ⟨true, "pk", "sk", none, none⟩ ("1.2.3.4") ("ua") ("/x") ("a.b")
    (.ok ⟨none, some ⟨false, some ("bot")⟩⟩) (.ok ("")) ⟨false, some ("bot"), none⟩ rfl

/-! ## C4: the URL-matching rule -/

/-- C4 — `urlsMatch` (a total function, so it never throws): for an
absolute (`http://`/`https://`) target it is host + pathname + search
equality of the two parses, scheme ignored; for a relative target it is
equality with the current `pathname + search` or the bare `pathname`; on
any parse failure it falls back to substring containment; and the claim's
concrete query-string example behaves as stated. -/
theorem c4_urlsMatch_spec :
    (∀ cur tgt cu tu,
      (strBeginsWith tgt ("http://") || strBeginsWith tgt ("https://")) = true →
      parseUrl cur = some cu → parseUrl tgt = some tu →
      (urlsMatch cur tgt = true ↔
        (cu.host = tu.host ∧ cu.pathname = tu.pathname ∧ cu.search = tu.search))) ∧
    (∀ cur tgt cu,
      (strBeginsWith tgt ("http://") || strBeginsWith tgt ("https://")) = false →
      parseUrl cur = some cu →
      (urlsMatch cur tgt = true ↔ (cu.pathname ++ cu.search = tgt ∨ cu.pathname = tgt))) ∧
    (∀ cur tgt, parseUrl cur = none → urlsMatch cur tgt = jsIncludes cur tgt) ∧
    (∀ cur tgt,
      (strBeginsWith tgt ("http://") || strBeginsWith tgt ("https://")) = true →
      parseUrl tgt = none → urlsMatch cur tgt = jsIncludes cur tgt) ∧
    urlsMatch ("https://example.com/blocked?x=1") ("https://example.com/blocked") = false ∧
    urlsMatch ("https://example.com/blocked") ("https://example.com/blocked") = true := by
  refine ⟨?_, ?_, ?_, ?_, by decide, by decide⟩
  · intro cur tgt cu tu habs hc ht
    unfold urlsMatch
    simp [habs, hc, ht, and_assoc]
  · intro cur tgt cu habs hc
    unfold urlsMatch
    simp [habs, hc]
  · intro cur tgt hc
    unfold urlsMatch
    by_cases habs : (strBeginsWith tgt ("http://") || strBeginsWith tgt ("https://")) = true
    · rcases htg : parseUrl tgt with _ | tu <;> simp [habs, hc, htg]
    · simp only [Bool.not_eq_true] at habs
      simp [habs, hc]
  · intro cur tgt habs ht
    rcases hc : parseUrl cur with _ | cu <;> (unfold urlsMatch; simp [habs, hc, ht])

/-- C4 witness: the positive concrete instance, via the absolute-target
rule. -/
theorem c4_witness :
    urlsMatch ("https://example.com/blocked") ("https://example.com/blocked") = true :=
  (c4_urlsMatch_spec.1 ("https://example.com/blocked") ("https://example.com/blocked")
      ⟨("example.com"), ("/blocked"), ("")⟩ ⟨("example.com"), ("/blocked"), ("")⟩
      (by decide) rfl rfl).mpr ⟨rfl, rfl, rfl⟩

/-! ## C5: mode-3 fetch failure degrades gracefully -/

/-- C5 — Action mode 3 with a non-numeric target URL and a failing
loopback fetch: the manual path returns the non-empty
`<p>Content not available</p>` placeholder (not a thrown error), and the
inline path delivers a response (status 500 with the non-empty
`Error fetching unwanted content.` body) rather than letting the failure
escape — in both paths the rejection is swallowed where it arises and the
block response still goes out. -/
theorem c5_mode3_fallback (cfg : Config) (e target : String) (u : UrlParts)
    (hset : truthyStr cfg.unwantedVisitorTo = some target)
    (hnan : jsNumber target = .nan)
    (hact : cfg.unwantedVisitorAction = some 3)
    (hurl : parseUrl target = some u) :
    getBlockedContent cfg (.error e) = .html contentNotAvailable ∧
    handleBlockedVisitor cfg (.error e) = .ok (.statusSend 500 fetchFailureBody) ∧
    contentNotAvailable ≠ "" ∧ fetchFailureBody ≠ "" := by
  refine ⟨?_, ?_, by decide, by decide⟩
  · unfold getBlockedContent
    rw [hset]
    simp [hnan, hact, hurl]
  · unfold handleBlockedVisitor
    rw [hset]
    simp [hnan, hact, hurl]

/-- C5 witness: a concrete mode-3 configuration with a failed fetch. -/
theorem c5_witness :
    getBlockedContent ⟨true, "pk", "sk", some ("https://x.test/page"), some 3⟩
        (.error ("boom")) = .html contentNotAvailable ∧
    handleBlockedVisitor ⟨true, "pk", "sk", some ("https://x.test/page"), some 3⟩
        (.error ("boom")) = .ok (.statusSend 500 fetchFailureBody) ∧
    contentNotAvailable ≠ "" ∧ fetchFailureBody ≠ "" :=
  c5_mode3_fallback ⟨true, "pk", "sk", some ("https://x.test/page"), some 3⟩ ("boom")
    ("https://x.test/page") ⟨("x.test"), ("/page"), ("")⟩ rfl rfl rfl rfl

/-! ## C7: service-reported errors are wrapped, lists joined with a comma -/

/-- C7 — When the parsed envelope carries an `error` member, both
evaluation paths throw an error wrapping the service message
(`Requesting analytics error: ...`, re-wrapped by the surrounding `catch`
with the path's own context), a list-shaped message is joined with
`", "`, and for `{error: {message: ["a","b"]}}` the thrown message
contains `a, b`. -/
theorem c7_service_error_wrapped :
    (∀ cfg bypassToken req env fetchResult msgs,
      cfg.isProtected = true →
      (decide (req.bypassHeader = some ("1")) && isValidBypassToken bypassToken req.tokenHeader) = false →
      selfUrlHit cfg (getCurrentUrl req) = false →
      isValidIpOpt (clientIp req) = true →
      env.error = some msgs →
      evaluateVisitor cfg bypassToken req (.ok env) fetchResult =
        .threw ("Error handling visitor: Requesting analytics error: " ++ joinMsg msgs)) ∧
    (∀ cfg ip userAgent event domain env fetchResult msgs,
      cfg.isProtected = true →
      selfUrlHit cfg (manualCurrentUrl event domain) = false →
      isValidIp ip = true →
      env.error = some msgs →
      evaluateVisitorManually cfg ip userAgent event domain (.ok env) fetchResult =
        .error ("Error handling visitor manually: Requesting analytics error: " ++ joinMsg msgs)) ∧
    joinMsg (.many [("a"), ("b")]) = "a, b" ∧
    jsIncludes ("Error handling visitor: Requesting analytics error: a, b") ("a, b") = true := by
  refine ⟨?_, ?_, by decide, by decide⟩
  · intro cfg bypassToken req env fetchResult msgs hp hb hs hip henv
    unfold evaluateVisitor evalWithIp
    simp [hp, hb, hs, hip, henv]
  · intro cfg ip userAgent event domain env fetchResult msgs hp hs hip henv
    unfold evaluateVisitorManually
    simp [hp, hs, hip, henv]

/-- C7 witness: the exact `["a","b"]` example from the claim, through both
paths at concrete inputs. -/
theorem c7_witness :
    evaluateVisitor ⟨true, "pk", "sk", none, none⟩ ("tok")
        ⟨none, none, some ("1.2.3.4"), some ("ua"), "/x", none, none, some ("a.b"), "a.b", none⟩
        (.ok ⟨some (.many [("a"), ("b")]), none⟩) (.ok ("")) =
      .threw ("Error handling visitor: Requesting analytics error: a, b") ∧
    evaluateVisitorManually ⟨true, "pk", "sk", none, none⟩ ("1.2.3.4") ("ua") ("/x") ("a.b")
        (.ok ⟨some (.many [("a"), ("b")]), none⟩) (.ok ("")) =
      .error ("Error handling visitor manually: Requesting analytics error: a, b") :=
  ⟨c7_service_error_wrapped.1 ⟨true, "pk", "sk", none, none⟩ ("tok")
      ⟨none, none, some ("1.2.3.4"), some ("ua"), "/x", none, none, some ("a.b"), "a.b", none⟩
      ⟨some (.many [("a"), ("b")]), none⟩ (.ok ("")) (.many [("a"), ("b")])
      rfl rfl rfl rfl rfl,
    c7_service_error_wrapped.2.1 ⟨true, "pk", "sk", none, none⟩ ("1.2.3.4") ("ua") ("/x")
      ("a.b") ⟨some (.many [("a"), ("b")]), none⟩ (.ok ("")) (.many [("a"), ("b")])
      rfl rfl rfl rfl⟩

/-! ## C1: an integer `unwantedVisitorTo` is a status directive -/

/-- C1 — If `unwantedVisitorTo` is set (truthy) and `Number(...)` parses it
to the integer `n`, then on a blocked verdict — whatever
`unwantedVisitorAction` holds, since `cfg` is arbitrary — the synthesized
block content is the status `n` when `n ∈ [100, 599]` (inline sends it as
the response status, manual returns it as numeric content), and the status
`500` otherwise. -/
theorem c1_status_directive (cfg : Config) (fetchResult : Except String String)
    (target : String) (f : JsFinite) (n : Int)
    (hset : truthyStr cfg.unwantedVisitorTo = some target)
    (hnum : jsNumber target = .num f)
    (hval : f.toRat = (n : ℚ)) :
    (100 ≤ n ∧ n ≤ 599 →
      handleBlockedVisitor cfg fetchResult = .ok (.sendStatus f) ∧
      getBlockedContent cfg fetchResult = .status f) ∧
    (¬ (100 ≤ n ∧ n ≤ 599) →
      handleBlockedVisitor cfg fetchResult = .ok (.sendStatus (.ofInt 500)) ∧
      getBlockedContent cfg fetchResult = .status (.ofInt 500)) := by
  have hcond : ((jsle (.ofInt 100) f && jsle f (.ofInt 599)) = true) ↔ (100 ≤ n ∧ n ≤ 599) := by
    rw [Bool.and_eq_true, jsle_iff, jsle_iff, toRat_ofInt, toRat_ofInt, hval]
    constructor
    · rintro ⟨h1, h2⟩
      exact ⟨by exact_mod_cast h1, by exact_mod_cast h2⟩
    · rintro ⟨h1, h2⟩
      exact ⟨by exact_mod_cast h1, by exact_mod_cast h2⟩
  have hh : handleBlockedVisitor cfg fetchResult =
      if (jsle (.ofInt 100) f && jsle f (.ofInt 599)) = true then .ok (.sendStatus f)
      else .ok (.sendStatus (.ofInt 500)) := by
    unfold handleBlockedVisitor
    rw [hset]
    simp [hnum]
  have hg : getBlockedContent cfg fetchResult =
      if (jsle (.ofInt 100) f && jsle f (.ofInt 599)) = true then .status f
      else .status (.ofInt 500) := by
    unfold getBlockedContent
    rw [hset]
    simp [hnum]
  constructor
  · intro hin
    rw [hh, hg, if_pos (hcond.mpr hin), if_pos (hcond.mpr hin)]
    exact ⟨rfl, rfl⟩
  · intro hout
    rw [hh, hg, if_neg (fun hc => hout (hcond.mp hc)), if_neg (fun hc => hout (hcond.mp hc))]
    exact ⟨rfl, rfl⟩

/-- C1 witness: `unwantedVisitorTo = "403"` with action mode 2 still yields
status 403 in both paths. -/
theorem c1_witness :
    handleBlockedVisitor ⟨true, "pk", "sk", some ("403"), some 2⟩ (.ok ("")) =
      .ok (.sendStatus ⟨403, 0⟩) ∧
    getBlockedContent ⟨true, "pk", "sk", some ("403"), some 2⟩ (.ok ("")) = .status ⟨403, 0⟩ :=
  (c1_status_directive ⟨true, "pk", "sk", some ("403"), some 2⟩ (.ok ("")) ("403") ⟨403, 0⟩ 403
      rfl rfl (by norm_num [JsFinite.toRat])).1 (by norm_num)

/-! ## C3: the bypass guard -/

/-- C3 — With protection on and a (nonempty, as generated) instance token:
the inline pipeline short-circuits at the bypass guard exactly when the
bypass flag header equals `"1"` and the token header equals the instance
token; and for any other token value (absent, empty, or different — length
mismatches included, where `timingSafeEqual` throws and is caught) the
validation returns `false` rather than propagating an exception, so
evaluation proceeds to the remaining stages. -/
theorem c3_bypass_shortcircuit :
    (∀ cfg bypassToken req remote fetchResult,
      cfg.isProtected = true → bypassToken ≠ "" →
      (evaluateVisitor cfg bypassToken req remote fetchResult = .skipBypass ↔
        (req.bypassHeader = some ("1") ∧ req.tokenHeader = some bypassToken))) ∧
    (∀ bypassToken tok, tok ≠ some bypassToken →
      isValidBypassToken bypassToken tok = false) := by
  constructor
  · intro cfg bt req remote fetchResult hp hbt
    unfold evaluateVisitor
    rw [if_neg (by simp [hp])]
    by_cases hcond : (decide (req.bypassHeader = some ("1")) && isValidBypassToken bt req.tokenHeader) = true
    · rw [if_pos hcond]
      have h1 := (Bool.and_eq_true _ _).mp hcond
      exact ⟨fun _ => ⟨of_decide_eq_true h1.1,
          (isValidBypassToken_iff bt req.tokenHeader hbt).mp h1.2⟩, fun _ => rfl⟩
    · rw [if_neg hcond]
      constructor
      · intro hsk
        exfalso
        by_cases hs : selfUrlHit cfg (getCurrentUrl req) = true
        · rw [if_pos hs] at hsk
          exact absurd hsk (by simp)
        · rw [if_neg hs] at hsk
          exact evalWithIp_ne_bypass cfg (clientIp req) remote fetchResult hsk
      · rintro ⟨h1, h2⟩
        exact absurd ((Bool.and_eq_true _ _).mpr ⟨decide_eq_true h1,
          (isValidBypassToken_iff bt req.tokenHeader hbt).mpr h2⟩) hcond
  · intro bt tok hne
    unfold isValidBypassToken
    rcases tok with _ | t
    · rfl
    · by_cases ht : t = ""
      · simp [ht]
      · have htb : t ≠ bt := fun he => hne (by rw [he])
        simp [ht, htb]

/-- C3 witness: matching flag and token at concrete inputs short-circuit
the pipeline. -/
theorem c3_witness :
    evaluateVisitor ⟨true, "pk", "sk", none, none⟩ ("tok")
        ⟨some ("1"), some ("tok"), some ("1.2.3.4"), some ("ua"), "/x", none, none,
          some ("a.b"), "a.b", none⟩
        (.ok ⟨none, none⟩) (.ok ("")) = .skipBypass :=
  (c3_bypass_shortcircuit.1 _ _ _ _ _ rfl (by decide)).mpr ⟨rfl, rfl⟩

/-! ## C6: invalid IPs fail fast, before any remote call -/

/-- C6 — When no guard (protection switch, bypass, self-URL) short-circuits
and the client IP is not a valid IPv4/IPv6 literal, both paths throw
`Invalid IP address.`.  The conclusion holds for *every* value of the
`remote` oracle — the outcome does not depend on the remote call, which is
the shallow-embedding rendering of "fails before any remote call is
made". -/
theorem c6_invalid_ip_failfast :
    (∀ cfg bypassToken req remote fetchResult,
      cfg.isProtected = true →
      (decide (req.bypassHeader = some ("1")) && isValidBypassToken bypassToken req.tokenHeader) = false →
      selfUrlHit cfg (getCurrentUrl req) = false →
      isValidIpOpt (clientIp req) = false →
      evaluateVisitor cfg bypassToken req remote fetchResult = .threw ("Invalid IP address.")) ∧
    (∀ cfg ip userAgent event domain remote fetchResult,
      cfg.isProtected = true →
      selfUrlHit cfg (manualCurrentUrl event domain) = false →
      isValidIp ip = false →
      evaluateVisitorManually cfg ip userAgent event domain remote fetchResult =
        .error ("Invalid IP address.")) := by
  constructor
  · intro cfg bt req remote fetchResult hp hb hs hip
    unfold evaluateVisitor evalWithIp
    simp [hp, hb, hs, hip]
  · intro cfg ip ua ev dom remote fetchResult hp hs hip
    unfold evaluateVisitorManually
    simp [hp, hs, hip]

/-- C6 witness: a non-IP client address at concrete inputs, on both
paths. -/
theorem c6_witness :
    evaluateVisitor ⟨true, "pk", "sk", none, none⟩ ("tok")
        ⟨none, none, some ("not-an-ip"), some ("ua"), "/x", none, none, some ("a.b"), "a.b", none⟩
        (.ok ⟨none, some ⟨true, none⟩⟩) (.ok ("")) = .threw ("Invalid IP address.") ∧
    evaluateVisitorManually ⟨true, "pk", "sk", none, none⟩ ("not-an-ip") ("ua") ("/x") ("a.b")
        (.ok ⟨none, some ⟨true, none⟩⟩) (.ok ("")) = .error ("Invalid IP address.") :=
  ⟨c6_invalid_ip_failfast.1 ⟨true, "pk", "sk", none, none⟩ ("tok")
      ⟨none, none, some ("not-an-ip"), some ("ua"), "/x", none, none, some ("a.b"), "a.b", none⟩
      (.ok ⟨none, some ⟨true, none⟩⟩) (.ok ("")) rfl rfl rfl rfl,
    c6_invalid_ip_failfast.2 ⟨true, "pk", "sk", none, none⟩ ("not-an-ip") ("ua") ("/x") ("a.b")
      (.ok ⟨none, some ⟨true, none⟩⟩) (.ok ("")) rfl rfl rfl⟩

/-! ## C2: content equivalence of inline and manual delivery -/

/-- C2 counterexample — action mode 3 with a failing loopback fetch: the
inline path delivers status 500 with body `Error fetching unwanted
content.`, while the manual path returns `<p>Content not available</p>`;
the two results are not content-equivalent, refuting the claim at this
configuration and verdict. -/
theorem c2_counterexample :
    contentEquiv
        (handleBlockedVisitor ⟨true, "pk", "sk", some ("https://x.test/page"), some 3⟩
          (.error ("boom")))
        (getBlockedContent ⟨true, "pk", "sk", some ("https://x.test/page"), some 3⟩
          (.error ("boom"))) = false ∧
    handleBlockedVisitor ⟨true, "pk", "sk", some ("https://x.test/page"), some 3⟩
        (.error ("boom")) = .ok (.statusSend 500 fetchFailureBody) ∧
    getBlockedContent ⟨true, "pk", "sk", some ("https://x.test/page"), some 3⟩
        (.error ("boom")) = .html contentNotAvailable :=
  ⟨by decide, rfl, rfl⟩

/-- C2 (amended) — For every configuration and fetch oracle *outside* the
mode-3 failure case (a mode-3 target whose loopback fetch fails or whose
URL does not parse), inline and manual deliveries are content-equivalent:
same status number, byte-identical HTML bodies, 302 redirect paired with
the timed-redirect fragment, and the two Access Denied renderings paired. -/
theorem c2_amended_content_equiv (cfg : Config) (fetchResult : Except String String)
    (h : mode3FailureB cfg fetchResult = false) :
    contentEquiv (handleBlockedVisitor cfg fetchResult) (getBlockedContent cfg fetchResult) = true := by
  unfold mode3FailureB at h
  unfold handleBlockedVisitor getBlockedContent
  rcases hto : truthyStr cfg.unwantedVisitorTo with _ | target
  · simp [contentEquiv]
  · rw [hto] at h
    rcases hjs : jsNumber target with _ | _ | _ | f
    · by_cases ha2 : cfg.unwantedVisitorAction = some 2
      · simp [hjs, ha2, contentEquiv]
      · by_cases ha3 : cfg.unwantedVisitorAction = some 3
        · rcases hu : parseUrl target with _ | u
          · exfalso
            simp [hjs, ha3, hu] at h
          · rcases hf : fetchResult with e | body
            · exfalso
              simp [hjs, ha3, hu, hf, isFetchError] at h
            · simp [hjs, ha2, ha3, hu, contentEquiv]
        · simp [hjs, ha2, ha3, contentEquiv]
    · simp [hjs, contentEquiv]
    · simp [hjs, contentEquiv]
    · by_cases hc : (jsle (.ofInt 100) f && jsle f (.ofInt 599)) = true <;>
        simp [hjs, hc, contentEquiv]

/-- C2 amended witness: a mode-2 (iframe) configuration is content-
equivalent across the two paths. -/
theorem c2_amended_witness :
    contentEquiv
        (handleBlockedVisitor ⟨true, "pk", "sk", some ("https://x.test/page"), some 2⟩
          (.ok ("body")))
        (getBlockedContent ⟨true, "pk", "sk", some ("https://x.test/page"), some 2⟩
          (.ok ("body"))) = true :=
  c2_amended_content_equiv ⟨true, "pk", "sk", some ("https://x.test/page"), some 2⟩
    (.ok ("body")) rfl

end VTF
